import Mathlib

/-
Verification of the RFP response generator's retrieval and MOA pipeline.

Shallow embedding of:
  * find_matches.py       (find_similar_matches)
  * call_llm.py           (extract_text, get_llm_responses MOA branch)
  * server/moa_sequential.py (run_model_with_timeout, generate_moa_response_sequential)
  * generate_prompt.py    (create_rfp_prompt example-formatting)

Machine floats of the source are modelled with rationals; external
effects (SQL reads/writes, the OpenAI embedding call, the LLM provider
calls) are modelled with explicit data and boolean/option parameters
recording the outcome of each effect.
-/

namespace RFP

/-! ## Data model for find_matches.py -/

/-- Model of an embedding row's `payload` column: `NULL`/falsy, a JSON
document that parses (carrying an optional `customer` entry), or a
malformed document on which `json.loads` raises (find_matches.py lines
148-154 swallow that exception). -/
inductive Payload where
  | null
  | parsed (customer : Option String)
  | malformed
deriving DecidableEq

/-- Customer extraction of find_matches.py lines 147-154: default `""`,
`payload_data.get('customer', '')` when the payload parses, and the bare
`except: pass` leaves `""` on a malformed payload. -/
def extractCustomer : Payload → String
  | .null => ""
  | .malformed => ""
  | .parsed c => c.getD ""

/-- A row of the `embeddings` table as selected by find_matches.py lines
115-127.  `hasEmbedding` models the `e.embedding IS NOT NULL` filter of
that query; the vector itself is abstracted by the `sim` parameter of
`find_similar_matches` below. -/
structure EmbeddingRow where
  id : Nat
  requirement : String
  response : String
  category : String
  reference : Option String
  payload : Payload
  hasEmbedding : Bool
deriving DecidableEq

/-- A similarity match dictionary as built in find_matches.py lines
156-164 (and copied key-for-key into `formatted_results` at lines
184-192). -/
structure SimilarityMatch where
  id : Nat
  requirement : String
  response : String
  category : String
  reference : String
  customer : String
  similarity_score : ℚ
deriving DecidableEq

/-- A row of `excel_requirement_responses` restricted to the columns the
retrieval touches (`id`, `requirement`, `category`, `similar_questions`). -/
structure RequirementRow where
  id : Nat
  requirement : String
  category : String
  similar_questions : Option String
deriving DecidableEq

/-- The database state seen by find_matches.py.  `embeddings` is listed
in the order produced by the query's `ORDER BY e.id`. -/
structure DB where
  requirements : List RequirementRow
  embeddings : List EmbeddingRow
deriving DecidableEq

/-- The dictionary appended at find_matches.py lines 156-164. -/
def mkMatch (row : EmbeddingRow) (s : ℚ) : SimilarityMatch :=
  { id := row.id
    requirement := row.requirement
    response := row.response
    category := row.category
    reference := row.reference.getD ""
    customer := extractCustomer row.payload
    similarity_score := s }

/-- The per-row similarity loop of find_matches.py lines 134-167: rows
with a non-null embedding are scored; `sim row = none` models the
per-row `except` at lines 165-167 (`continue`); rows pass only when
`similarity >= 0.9` (line 146). -/
def thresholdMatches (db : DB) (sim : EmbeddingRow → Option ℚ) : List SimilarityMatch :=
  (db.embeddings.filter (fun e => e.hasEmbedding)).filterMap (fun row =>
    match sim row with
    | some s => if mkRat 9 10 ≤ s then some (mkMatch row s) else none
    | none => none)

/-- One step of a stable descending insertion sort on `similarity_score`:
an element is placed before the first strictly smaller score, after all
earlier elements with an equal or larger score. -/
def insertDesc (m : SimilarityMatch) : List SimilarityMatch → List SimilarityMatch
  | [] => [m]
  | x :: xs =>
    if x.similarity_score ≤ m.similarity_score then m :: x :: xs else x :: insertDesc m xs

/-- Model of `similar_matches.sort(key=..., reverse=True)` at
find_matches.py line 170.  CPython's sort is stable, and any two stable
sorts by the same key agree, so a stable insertion sort is an exact
model of the list produced there. -/
def sortDesc (l : List SimilarityMatch) : List SimilarityMatch :=
  l.foldr insertDesc []

/-- Two-decimal rendering of a non-negative score, modelling CPython
`f"{x:.2f}"` for the score range used (generate_prompt.py line 104):
the centivalue is `round(q * 100)`, computed as
`floor(q * 100 + 1/2)` on the numerator and denominator. -/
def fmt2 (q : ℚ) : String :=
  let c := ((q.num * 200 + (q.den : Int)) / ((q.den : Int) * 2)).toNat
  toString (c / 100) ++ "." ++ toString (c % 100 / 10) ++ toString (c % 10)

/-- Four-decimal rendering of a non-negative score, modelling CPython
`f"{x:.4f}"` (find_matches.py line 200). -/
def fmt4 (q : ℚ) : String :=
  let c := ((q.num * 20000 + (q.den : Int)) / ((q.den : Int) * 2)).toNat
  toString (c / 10000) ++ "." ++ toString (c % 10000 / 1000) ++ toString (c % 1000 / 100)
    ++ toString (c % 100 / 10) ++ toString (c % 10)

/-- One entry of `similar_questions_for_db` (find_matches.py lines
195-201), serialized.  The concrete JSON syntax of `json.dumps` is
abstracted; the claims only ever ask whether this string is written. -/
def snapshotEntry (m : SimilarityMatch) : String :=
  "\x7bquestion: " ++ m.requirement ++ ", response: " ++ m.response ++ ", reference: "
    ++ (if m.reference == "" then "Match #" ++ toString m.id else m.reference)
    ++ ", customer: " ++ m.customer
    ++ ", similarity_score: " ++ fmt4 m.similarity_score ++ "\x7d"

/-- Serialization of the whole snapshot list (`json.dumps`, line 206). -/
def serializeSnapshot (l : List SimilarityMatch) : String :=
  "[" ++ String.intercalate ", " (l.map snapshotEntry) ++ "]"

/-- The `UPDATE excel_requirement_responses SET similar_questions = ...`
of find_matches.py lines 209-221. -/
def writeSnapshot (db : DB) (req_id : Nat) (s : String) : DB :=
  { db with
    requirements := db.requirements.map (fun r =>
      if r.id == req_id then { r with similar_questions := some s } else r) }

/-- The `COUNT(*)` of find_matches.py lines 56-66: embeddings whose
`requirement` column equals the requirement's text. -/
def embeddingCountFor (db : DB) (reqText : String) : Nat :=
  (db.embeddings.filter (fun e => e.requirement == reqText)).length

/-- The shape of the dictionaries find_similar_matches returns:
`{"success": False, "error": ...}` or `{"success": True, "requirement":
{...}, "similar_matches": [...]}`, the latter with an optional
`"warning"` key (present only at lines 72-81). -/
inductive FindMatchesResult where
  | err (error : String)
  | ok (req_id : Nat) (text category : String)
      (similar_matches : List SimilarityMatch) (warning : Option String)
deriving DecidableEq

/-- find_matches.py `find_similar_matches` (lines 21-255).  Effects are
made explicit: `sim row` is the cosine similarity the code computes at
lines 140-143 for that row against the freshly generated query embedding
(`none` = the per-row exception of lines 165-167); `embedOk` is whether
the OpenAI embedding call of lines 104-112 succeeds; `writeOk` is
whether the snapshot `UPDATE` of lines 215-221 succeeds.  A raised
exception from that `UPDATE` is caught only by the outer handler at
lines 250-255, which turns the whole call into `{"success": False}`.
The returned pair is (result dictionary, database state after the call). -/
def find_similar_matches (db : DB) (requirement_id : Nat) (sim : EmbeddingRow → Option ℚ)
    (embedOk writeOk : Bool) : FindMatchesResult × DB :=
  match db.requirements.find? (fun r => r.id == requirement_id) with
  | none => (.err ("No requirement found with ID: " ++ toString requirement_id), db)
  | some req =>
    if embeddingCountFor db req.requirement == 0 then
      (.ok req.id req.requirement req.category [] (some "No embeddings found for this requirement"), db)
    else if !embedOk then
      (.err "Failed to generate embedding", db)
    else
      if ((sortDesc (thresholdMatches db sim)).take 5).isEmpty then
        (.ok requirement_id req.requirement req.category
          ((sortDesc (thresholdMatches db sim)).take 5) none, db)
      else if writeOk then
        (.ok requirement_id req.requirement req.category
          ((sortDesc (thresholdMatches db sim)).take 5) none,
          writeSnapshot db requirement_id
            (serializeSnapshot ((sortDesc (thresholdMatches db sim)).take 5)))
      else
        (.err "snapshot write failed", db)

/-- The ordering relation the retrieval's output satisfies: strictly
larger score first, ties in ascending source id (the stable sort keeps
the `ORDER BY e.id` input order on ties). -/
def rankRel (a b : SimilarityMatch) : Prop :=
  b.similarity_score < a.similarity_score ∨
    (a.similarity_score = b.similarity_score ∧ a.id < b.id)

/-! ## Model of call_llm.py get_llm_responses, MOA branch -/

/-- Python truthiness of an optional string (`None` and `""` are falsy),
as used by `any([...])` and `x or y` in call_llm.py lines 657-675. -/
def pyTruthyStr : Option String → Bool
  | some s => !(s == "")
  | none => false

/-- Python `a or b` on optional strings. -/
def pyOrStr (a b : Option String) : Option String :=
  if pyTruthyStr a then a else b

/-- Observable outcome of the MOA branch of get_llm_responses:
`final_response = none` models the `ValueError` raised at line 678
propagating out of the function; `synthesisCalled` records whether the
synthesis `prompt_gpt(synthesis_prompt, 'openai')` at line 670 was
invoked; `savedFinal` is the `final_response` value written by the
`UPDATE` at lines 682-704 (`none` = no persistence write executed). -/
structure MoaRunResult where
  final_response : Option String
  synthesisCalled : Bool
  savedFinal : Option String
deriving DecidableEq

/-- call_llm.py lines 656-705: given the three per-provider outcomes of
lines 639-654 (`none` = that provider's `prompt_gpt` raised and the
handler stored `None`) and the outcome of the synthesis call (`none` =
it raised), compute the final response, whether synthesis was invoked,
and what is persisted.  With at least one truthy response, synthesis is
always attempted (line 670); on synthesis failure the fallback is
`openai_response or deepseek_response or claude_response` (line 675);
with no truthy response a `ValueError` is raised at line 678, before the
save at lines 680-704. -/
def get_llm_responses_moa (openai_response deepseek_response claude_response : Option String)
    (synthesis : Option String) : MoaRunResult :=
  if pyTruthyStr openai_response || pyTruthyStr deepseek_response
      || pyTruthyStr claude_response then
    match synthesis with
    | some t => ⟨some t, true, some t⟩
    | none =>
      let fb := pyOrStr openai_response (pyOrStr deepseek_response claude_response)
      ⟨fb, true, fb⟩
  else
    ⟨none, false, none⟩

/-! ## Model of server/moa_sequential.py -/

/-- Outcome of one `prompt_gpt` invocation as observed by
`run_model_with_timeout`: it returned a string, the SIGALRM handler
raised `TimeoutError`, or some other exception was raised. -/
inductive CallResult where
  | returns (s : String)
  | timeoutRaised (e : String)
  | raised (e : String)
deriving DecidableEq

/-- The per-model result dictionaries of moa_sequential.py lines 60-94
(`status` key `"success"`, `"error"` or `"timeout"`). -/
inductive ProviderStatus where
  | success (response : String)
  | errorStatus (e : String)
  | timeoutStatus (e : String)
deriving DecidableEq

/-- moa_sequential.py `run_model_with_timeout` (lines 29-99): a returned
string starting with `"Error:"` is classified as an error (lines 60-66),
otherwise success; `TimeoutError` and other exceptions map to the
`timeout` and `error` statuses. -/
def run_model_with_timeout : CallResult → ProviderStatus
  | .returns s => if s.startsWith "Error:" then .errorStatus s else .success s
  | .timeoutRaised e => .timeoutStatus e
  | .raised e => .errorStatus e

/-- Whether a per-model result has `status == "success"`. -/
def isSuccess : ProviderStatus → Bool
  | .success _ => true
  | _ => false

/-- The `"response"` entry of a per-model result (present iff success). -/
def statusText : ProviderStatus → Option String
  | .success s => some s
  | _ => none

/-- The `model_responses` dictionary built by the phase-1 loop of
moa_sequential.py lines 182-197, in insertion order `openai, anthropic,
deepseek` (`model_order` lowercased).  The `skip` flags model the
wall-clock time-budget check of lines 184-189. -/
def seqOutcomes (skipO skipA skipD : Bool) (callO callA callD : CallResult) :
    List (String × ProviderStatus) :=
  (if skipO then [] else [("openai", run_model_with_timeout callO)]) ++
  (if skipA then [] else [("anthropic", run_model_with_timeout callA)]) ++
  (if skipD then [] else [("deepseek", run_model_with_timeout callD)])

/-- Result dictionary of `generate_moa_response_sequential`
(moa_sequential.py lines 200-258): either the error dictionary of lines
202-206 (no `final_response` key, modelled as `none`) or the success
dictionary of lines 245-258.  `synthesisCalled` records whether the
phase-2 synthesis call at line 223 was made. -/
structure SeqMoaResult where
  status : String
  message : Option String
  final_response : Option String
  models_succeeded : Nat
  models_attempted : Nat
  synthesisCalled : Bool
deriving DecidableEq

/-- The synthesis-failure fallback loop of moa_sequential.py lines
229-236: the first success among `model_order`. -/
def firstSuccessIn (outcomes : List (String × ProviderStatus)) : List String → Option String
  | [] => none
  | name :: rest =>
    match outcomes.find? (fun p => p.1 == name) with
    | some p =>
      match p.2 with
      | .success t => some t
      | _ => firstSuccessIn outcomes rest
    | none => firstSuccessIn outcomes rest

/-- moa_sequential.py `generate_moa_response_sequential` (lines 150-258),
parameterized by the time-budget skip decisions, the three provider call
outcomes, and the synthesis call outcome.  Zero successes return the
terminal error (lines 200-206).  Exactly one success uses that
provider's response directly, with no synthesis call (lines 212-216,
`next(...)` walks the dictionary in insertion order).  Two or more
successes invoke synthesis (line 223), falling back on the first
successful model in priority order if synthesis fails (lines 228-236). -/
def generate_moa_response_sequential (skipO skipA skipD : Bool)
    (callO callA callD synthesisCall : CallResult) : SeqMoaResult :=
  match (seqOutcomes skipO skipA skipD callO callA callD).filter (fun p => isSuccess p.2) with
  | [] =>
    ⟨"error", some "All models failed to generate responses", none, 0,
      (seqOutcomes skipO skipA skipD callO callA callD).length, false⟩
  | [p] =>
    ⟨"success", none, statusText p.2, 1,
      (seqOutcomes skipO skipA skipD callO callA callD).length, false⟩
  | p :: q :: rest =>
    match run_model_with_timeout synthesisCall with
    | .success t =>
      ⟨"success", none, some t, (p :: q :: rest).length,
        (seqOutcomes skipO skipA skipD callO callA callD).length, true⟩
    | _ =>
      match firstSuccessIn (seqOutcomes skipO skipA skipD callO callA callD)
          ["openai", "anthropic", "deepseek"] with
      | some t =>
        ⟨"success", none, some t, (p :: q :: rest).length,
          (seqOutcomes skipO skipA skipD callO callA callD).length, true⟩
      | none =>
        ⟨"success", none, some "Failed to generate a response.", (p :: q :: rest).length,
          (seqOutcomes skipO skipA skipD callO callA callD).length, true⟩

/-! ## Model of generate_prompt.py create_rfp_prompt -/

/-- One entry of the `previous_responses` argument as built by
call_llm.py lines 590-595 (keys `requirement`, `response`, `customer`,
`similarity_score`; scores are floats, modelled as rationals). -/
structure PrevResponse where
  requirement : String
  response : String
  customer : String
  similarity_score : ℚ
deriving DecidableEq

/-- The defensive filter of generate_prompt.py line 79:
`[resp for resp in previous_responses if resp.get('similarity_score', 0) >= 0.9]`. -/
def high_similarity_responses (prev : List PrevResponse) : List PrevResponse :=
  prev.filter (fun r => decide (mkRat 9 10 ≤ r.similarity_score))

/-- The matches whose source blocks are embedded in the prompt:
`high_similarity_responses[:3]` (line 81), with the redundant in-loop
`if score < 0.9: continue` of lines 89-91 repeated. -/
def includedMatches (prev : List PrevResponse) : List PrevResponse :=
  ((high_similarity_responses prev).take 3).filter
    (fun r => !decide (r.similarity_score < mkRat 9 10))

/-- Worker for `pySplitWords`: walk the characters, accumulating the
current word (reversed); spaces close the current word, and empty
pieces produced by runs of spaces are dropped. -/
def wordsAux : List Char → List Char → List String
  | [], acc => if acc.isEmpty then [] else [String.mk acc.reverse]
  | c :: rest, acc =>
    if c == ' ' then
      if acc.isEmpty then wordsAux rest [] else String.mk acc.reverse :: wordsAux rest []
    else
      wordsAux rest (c :: acc)

/-- Python `str.split()` restricted to the space character: split on
runs of spaces, dropping empty pieces (generate_prompt.py line 98). -/
def pySplitWords (s : String) : List String :=
  wordsAux s.data []

/-- Lines 98-99: first five words of the requirement text, with an
ellipsis when there are five or more words. -/
def shortTitle (s : String) : String :=
  String.intercalate " " ((pySplitWords s).take 5) ++
    (if 5 ≤ ((pySplitWords s).take 5).length then "..." else "")

/-- Line 102: `f" for {customer_name}" if customer_name else ""`. -/
def customerSuffix (c : String) : String :=
  if c == "" then "" else " for " ++ c

/-- The similarity citation the code actually renders inside a source
header: a two-decimal ratio, e.g. `(Similarity: 0.95)`. -/
def citeStr (q : ℚ) : String :=
  "(Similarity: " ++ fmt2 q ++ ")"

/-- The full per-match source block appended at generate_prompt.py
lines 104-109, starting with the attribution header
`f"**Source {i}: {short_title}{customer_suffix} (Similarity: {score:.2f})**:\n"`.
String append is associative; the grouping here makes the citation
fragment a syntactic sub-term. -/
def sourceBlock (i : Nat) (m : PrevResponse) : String :=
  ("**Source " ++ toString i ++ ": " ++ shortTitle m.requirement
      ++ customerSuffix m.customer ++ " ")
    ++ (citeStr m.similarity_score
    ++ ("**:" ++ "\n"
      ++ "Original Requirement: " ++ m.requirement ++ "\n"
      ++ "Previous Response: " ++ m.response ++ "\n"
      ++ (if m.customer == "" then "" else "Customer/Client: " ++ m.customer ++ "\n")
      ++ "\n"))

/-- The `formatted_examples +=` loop of lines 81-109 over
`enumerate(high_similarity_responses[:3], 1)`: source numbering starts
at `i`, and the in-loop sub-threshold `continue` contributes nothing. -/
def renderExamples : Nat → List PrevResponse → String
  | _, [] => ""
  | i, m :: rest =>
    (if decide (m.similarity_score < mkRat 9 10) then "" else sourceBlock i m)
      ++ renderExamples (i + 1) rest

/-- The `formatted_examples` string interpolated into the user message
at line 117. -/
def formattedExamples (prev : List PrevResponse) : String :=
  renderExamples 1 ((high_similarity_responses prev).take 3)

/-- The score rendered as a percentage, e.g. `95%` for 0.95 — the form
the specification asks for. -/
def citePercent (q : ℚ) : String :=
  toString (((q.num * 200 + (q.den : Int)) / ((q.den : Int) * 2)).toNat) ++ "%"

/-- Whether `needle` is a leading segment of `hay`. -/
def leadsList : List Char → List Char → Bool
  | [], _ => true
  | _ :: _, [] => false
  | a :: as, b :: bs => a == b && leadsList as bs

/-- Whether `needle` occurs contiguously inside `hay` (Python
`needle in hay` on strings, over the underlying character lists). -/
def listContains (needle : List Char) : List Char → Bool
  | [] => needle.isEmpty
  | c :: rest => leadsList needle (c :: rest) || listContains needle rest

/-! ## Model of call_llm.py extract_text -/

/-- Dynamic Python values, restricted to the shapes extract_text probes:
strings, numbers, `None`, lists, dicts, and attribute-carrying objects. -/
inductive PyVal where
  | pynone
  | str (s : String)
  | int (n : Int)
  | list (items : List PyVal)
  | dict (entries : List (String × PyVal))
  | obj (attrs : List (String × PyVal))

/-- First value bound to `key` in an association list. -/
def lookupStr (entries : List (String × PyVal)) (key : String) : Option PyVal :=
  match entries.find? (fun p => p.1 == key) with
  | some p => some p.2
  | none => none

/-- Python `hasattr`/`getattr`: only objects carry the probed attributes
(`hasattr` is false on strings, numbers, lists and dicts for the names
extract_text uses). -/
def getAttr : PyVal → String → Option PyVal
  | .obj attrs, name => lookupStr attrs name
  | _, _ => none

/-- Python `len(v)`: defined on sized values, raises `TypeError`
otherwise.  extract_text calls it inside f-string debug prints. -/
def pyLen : PyVal → Except String Nat
  | .str s => .ok s.length
  | .list l => .ok l.length
  | .dict d => .ok d.length
  | _ => .error "TypeError: object has no len"

/-- Python `v[:100]`: slicing is defined on strings and lists and raises
`TypeError` on numbers, `None`, dicts and plain objects. -/
def pySlice : PyVal → Except String PyVal
  | .str s => .ok (.str s)
  | .list l => .ok (.list l)
  | _ => .error "TypeError: value is not sliceable"

/-- Whether a value is a Python `str`. -/
def isStrB : PyVal → Bool
  | .str _ => true
  | _ => false

/-- Abstraction of CPython `str(v)`; the claims never inspect the exact
rendering, only that the coercion is total and yields a string. -/
def pyStr : PyVal → String
  | .pynone => "None"
  | .str s => s
  | .int n => toString n
  | .list items => "[list of " ++ toString items.length ++ " items]"
  | .dict entries => "\x7bdict of " ++ toString entries.length ++ " items\x7d"
  | .obj _ => "<object>"

/-- call_llm.py line 47: `' '.join(block.text for block in
response.content if hasattr(block, 'text'))`.  `str.join` raises
`TypeError` when some collected item is not a string; that exception is
caught by the surrounding `except` (lines 53-54). -/
def joinTexts (items : List PyVal) : Except String String :=
  let ts := items.filterMap (fun b => getAttr b "text")
  if ts.all isStrB then
    .ok (String.intercalate " "
      (ts.filterMap (fun v => match v with | .str s => some s | _ => none)))
  else
    .error "TypeError: sequence item expected str instance"

/-- call_llm.py lines 56-76, reached when the block join yielded an
empty string or raised: if the first content item is a dict with a
`'text'` entry, return that entry (the debug `len`/slice prints at
lines 61-62 raise inside the `try` on non-sized values, falling through
to the string fallback); otherwise return `str(response.content)`. -/
def contentListFallback (items : List PyVal) (content : PyVal) : Except String PyVal :=
  match items with
  | (PyVal.dict d) :: _ =>
    match lookupStr d "text" with
    | some v =>
      if (pyLen v).isOk && (pySlice v).isOk then .ok v else .ok (.str (pyStr content))
    | none => .ok (.str (pyStr content))
  | _ => .ok (.str (pyStr content))

/-- call_llm.py lines 100-111: the `message.content` probe.  When
`response.message.content` is a non-empty list whose head carries a
`text` attribute, that value is returned — unless the debug `len`/slice
prints raise inside the `try` (lines 106-107), in which case the
exception is caught and control falls through (`none`). -/
def messageProbe (response : PyVal) : Option PyVal :=
  match getAttr response "message" with
  | some msg =>
    match getAttr msg "content" with
    | some (.list (c0 :: _)) =>
      match getAttr c0 "text" with
      | some t => if (pyLen t).isOk && (pySlice t).isOk then some t else none
      | none => none
    | _ => none
  | none => none

/-- call_llm.py lines 114-131: the attribute loop's `choices` probe.
`choices[0].message.content` is returned when present and sliceable
(the `content[:100]` debug print at line 127 raises inside the `try`
otherwise, caught at lines 130-131, `none` = fall through). -/
def choicesProbe (response : PyVal) : Option PyVal :=
  match getAttr response "choices" with
  | some (.list (c :: _)) =>
    match getAttr c "message" with
    | some m =>
      match getAttr m "content" with
      | some content =>
        if (pySlice content).isOk then some content else none
      | none => none
    | none => none
  | _ => none

/-- call_llm.py `extract_text` (lines 14-139).  `Except.error` models an
uncaught Python exception.  The probing order of the source: a direct
string (line 29); a `content` attribute (line 36) with list/str/other
sub-cases (lines 40-89); a `text` attribute (line 92) — whose debug
prints `len(response.text)` and `response.text[:100]` at lines 94-95 run
OUTSIDE any `try` and therefore raise on non-sized/non-sliceable values;
the `message.content` probe; the `choices` probe; and finally
`str(response)` (line 134). -/
def extract_text (response : PyVal) : Except String PyVal :=
  match response with
  | .str s => .ok (.str s)
  | _ =>
    match getAttr response "content" with
    | some content =>
      match content with
      | .list items =>
        match joinTexts items with
        | .ok r => if r == "" then contentListFallback items content else .ok (.str r)
        | .error _ => contentListFallback items content
      | .str s => .ok (.str s)
      | other => .ok (.str (pyStr other))
    | none =>
      match getAttr response "text" with
      | some t =>
        match pyLen t with
        | .error e => .error e
        | .ok _ =>
          match pySlice t with
          | .error e => .error e
          | .ok _ => .ok t
      | none =>
        match messageProbe response with
        | some t => .ok t
        | none =>
          match choicesProbe response with
          | some c => .ok c
          | none => .ok (.str (pyStr response))

/-- Content-list well-typedness: if the content-list fallback hands a
value back, that value is a string (i.e. a dict head's `'text'` entry,
when it is what gets returned, is a string). -/
def contentFallbackOk (items : List PyVal) : Bool :=
  match contentListFallback items (PyVal.list items) with
  | .ok t => isStrB t
  | .error _ => true

/-- The `message.content[0].text` value, when the probe returns one, is
a string. -/
def messageLeafOk (v : PyVal) : Bool :=
  match messageProbe v with
  | some t => isStrB t
  | none => true

/-- The `choices[0].message.content` value, when the probe returns one,
is a string. -/
def choicesLeafOk (v : PyVal) : Bool :=
  match choicesProbe v with
  | some t => isStrB t
  | none => true

/-- The text leaves extract_text may hand back (or crash on) are all
strings: the natural typing assumption on duck-typed API responses. -/
def textLeavesOk (v : PyVal) : Bool :=
  match v with
  | .str _ => true
  | _ =>
    match getAttr v "content" with
    | some (.list items) => contentFallbackOk items
    | some _ => true
    | none =>
      match getAttr v "text" with
      | some t => isStrB t
      | none => messageLeafOk v && choicesLeafOk v

/-! ## Concrete inputs used by witnesses and counterexamples -/

/-- A database with one requirement and two corpus rows. -/
def dbA : DB :=
  ⟨[⟨1, "alpha", "cat", none⟩],
    [⟨1, "alpha", "respA", "cat", none, .null, true⟩,
      ⟨2, "beta", "respB", "cat", none, .null, true⟩]⟩

/-- Similarities for `dbA`: row 1 scores 0.95, row 2 scores 0.40. -/
def simA : EmbeddingRow → Option ℚ :=
  fun row => if row.id == 1 then some (mkRat 19 20) else some (mkRat 2 5)

/-- A database whose single corpus row will score below threshold. -/
def dbB : DB :=
  ⟨[⟨1, "alpha", "cat", none⟩], [⟨1, "alpha", "respA", "cat", none, .null, true⟩]⟩

/-- A similarity function scoring every row 0.40 (below threshold). -/
def simLow : EmbeddingRow → Option ℚ := fun _ => some (mkRat 2 5)

/-- Like `dbB` but with a previously stored `similar_questions`
snapshot on the requirement row. -/
def dbC : DB :=
  ⟨[⟨1, "alpha", "cat", some "old snapshot"⟩],
    [⟨1, "alpha", "respA", "cat", none, .null, true⟩]⟩

/-- A database with two corpus rows that will score identically. -/
def dbT : DB :=
  ⟨[⟨1, "alpha", "cat", none⟩],
    [⟨1, "alpha", "respA", "cat", none, .null, true⟩,
      ⟨2, "alpha two", "respB", "cat", none, .null, true⟩]⟩

/-- Similarities for `dbT`: both rows score 0.95 (a tie). -/
def simT : EmbeddingRow → Option ℚ := fun _ => some (mkRat 19 20)

/-- A previous-response entry at similarity 0.95. -/
def mExA : PrevResponse := ⟨"a b", "r", "", mkRat 19 20⟩

/-- A well-shaped provider response: a content list with one text block. -/
def vEx : PyVal := .obj [("content", .list [.obj [("text", .str "hello")]])]

/-! ## Lemmas about the stable sort -/

theorem mem_insertDesc (m x : SimilarityMatch) :
    ∀ l : List SimilarityMatch, x ∈ insertDesc m l → x = m ∨ x ∈ l := by
  intro l
  induction l with
  | nil =>
    intro h
    simp only [insertDesc, List.mem_singleton] at h
    exact Or.inl h
  | cons a as ih =>
    intro h
    simp only [insertDesc] at h
    split at h
    · rcases List.mem_cons.mp h with h1 | h2
      · exact Or.inl h1
      · exact Or.inr h2
    · rcases List.mem_cons.mp h with h1 | h2
      · exact Or.inr (h1 ▸ List.mem_cons_self a as)
      · rcases ih h2 with h3 | h4
        · exact Or.inl h3
        · exact Or.inr (List.mem_cons_of_mem a h4)

theorem mem_sortDesc (x : SimilarityMatch) :
    ∀ l : List SimilarityMatch, x ∈ sortDesc l → x ∈ l := by
  intro l
  induction l with
  | nil => intro h; simp [sortDesc] at h
  | cons a as ih =>
    intro h
    have h0 : x ∈ insertDesc a (sortDesc as) := h
    rcases mem_insertDesc a x _ h0 with h1 | h2
    · exact h1 ▸ List.mem_cons_self a as
    · exact List.mem_cons_of_mem a (ih h2)

theorem pairwise_insertDesc (m : SimilarityMatch) :
    ∀ l : List SimilarityMatch, l.Pairwise rankRel →
      (∀ x ∈ l, m.similarity_score = x.similarity_score → m.id < x.id) →
      (insertDesc m l).Pairwise rankRel := by
  intro l
  induction l with
  | nil => intro _ _; simp [insertDesc]
  | cons a as ih =>
    intro hp hm
    rw [List.pairwise_cons] at hp
    obtain ⟨ha, has⟩ := hp
    simp only [insertDesc]
    split
    case isTrue hle =>
      refine List.pairwise_cons.mpr ⟨?_, List.pairwise_cons.mpr ⟨ha, has⟩⟩
      intro y hy
      rcases List.mem_cons.mp hy with rfl | hy2
      · rcases lt_or_eq_of_le hle with hlt | heq
        · exact Or.inl hlt
        · exact Or.inr ⟨heq.symm, hm y (List.mem_cons_self y as) heq.symm⟩
      · rcases ha y hy2 with h1 | h2
        · exact Or.inl (lt_of_lt_of_le h1 hle)
        · have hy_le : y.similarity_score ≤ m.similarity_score := h2.1 ▸ hle
          rcases lt_or_eq_of_le hy_le with hlt | heq
          · exact Or.inl hlt
          · exact Or.inr ⟨heq.symm, hm y (List.mem_cons_of_mem a hy2) heq.symm⟩
    case isFalse hgt =>
      have hma : m.similarity_score < a.similarity_score := lt_of_not_le hgt
      refine List.pairwise_cons.mpr
        ⟨?_, ih has (fun x hx he => hm x (List.mem_cons_of_mem a hx) he)⟩
      intro y hy
      rcases mem_insertDesc m y _ hy with rfl | hy2
      · exact Or.inl hma
      · exact ha y hy2

theorem pairwise_sortDesc :
    ∀ l : List SimilarityMatch,
      l.Pairwise (fun a b => a.similarity_score = b.similarity_score → a.id < b.id) →
      (sortDesc l).Pairwise rankRel := by
  intro l
  induction l with
  | nil => intro _; simp [sortDesc]
  | cons a as ih =>
    intro hp
    rw [List.pairwise_cons] at hp
    obtain ⟨ha, has⟩ := hp
    show (insertDesc a (sortDesc as)).Pairwise rankRel
    exact pairwise_insertDesc a _ (ih has) (fun x hx he => ha x (mem_sortDesc x as hx) he)

/-! ## Lemmas about the threshold filter -/

theorem matchStep_inv (sim : EmbeddingRow → Option ℚ) (row : EmbeddingRow)
    (x : SimilarityMatch)
    (h : (match sim row with
          | some s => if mkRat 9 10 ≤ s then some (mkMatch row s) else none
          | none => none) = some x) :
    mkRat 9 10 ≤ x.similarity_score ∧ x.id = row.id := by
  cases hs : sim row with
  | none => rw [hs] at h; exact absurd h (by simp)
  | some s =>
    rw [hs] at h
    dsimp only at h
    by_cases hle : mkRat 9 10 ≤ s
    · rw [if_pos hle] at h
      cases h
      exact ⟨hle, rfl⟩
    · rw [if_neg hle] at h
      exact absurd h (by simp)

theorem thresholdMatches_score (db : DB) (sim : EmbeddingRow → Option ℚ)
    (m : SimilarityMatch) (hm : m ∈ thresholdMatches db sim) :
    mkRat 9 10 ≤ m.similarity_score := by
  rw [thresholdMatches, List.mem_filterMap] at hm
  obtain ⟨row, _, hrow⟩ := hm
  exact (matchStep_inv sim row m hrow).1

theorem result_matches_score (db : DB) (sim : EmbeddingRow → Option ℚ)
    (m : SimilarityMatch) (hm : m ∈ (sortDesc (thresholdMatches db sim)).take 5) :
    mkRat 9 10 ≤ m.similarity_score :=
  thresholdMatches_score db sim m (mem_sortDesc m _ (List.mem_of_mem_take hm))

/-- C1: every similarity match returned by a successful retrieval has
`similarity_score >= 0.90` — the filter at find_matches.py line 146 is
applied before a row can ever reach the returned `similar_matches`. -/
theorem find_similar_matches_threshold
    (db : DB) (rid : Nat) (sim : EmbeddingRow → Option ℚ) (embedOk writeOk : Bool)
    (i : Nat) (t c : String) (ms : List SimilarityMatch) (w : Option String)
    (h : (find_similar_matches db rid sim embedOk writeOk).1 =
      FindMatchesResult.ok i t c ms w) :
    ∀ m ∈ ms, mkRat 9 10 ≤ m.similarity_score := by
  unfold find_similar_matches at h
  split at h
  · exact absurd h (by simp)
  · split at h
    · simp only [Prod.fst, FindMatchesResult.ok.injEq] at h
      obtain ⟨_, _, _, hms, _⟩ := h
      intro m hm
      rw [← hms] at hm
      exact absurd hm (List.not_mem_nil m)
    · split at h
      · exact absurd h (by simp)
      · split at h
        · simp only [Prod.fst, FindMatchesResult.ok.injEq] at h
          obtain ⟨_, _, _, hms, _⟩ := h
          intro m hm
          exact result_matches_score db sim m (hms ▸ hm)
        · split at h
          · simp only [Prod.fst, FindMatchesResult.ok.injEq] at h
            obtain ⟨_, _, _, hms, _⟩ := h
            intro m hm
            exact result_matches_score db sim m (hms ▸ hm)
          · exact absurd h (by simp)

/-- C1 witness: the theorem applied to the concrete database `dbA`. -/
theorem find_similar_matches_threshold_witness :
    mkRat 9 10 ≤
      (⟨1, "alpha", "respA", "cat", "", "", mkRat 19 20⟩ : SimilarityMatch).similarity_score :=
  find_similar_matches_threshold dbA 1 simA true true 1 "alpha" "cat"
    [⟨1, "alpha", "respA", "cat", "", "", mkRat 19 20⟩] none (by decide)
    ⟨1, "alpha", "respA", "cat", "", "", mkRat 19 20⟩ (by decide)

theorem thresholdMatches_pairwise_id (db : DB) (sim : EmbeddingRow → Option ℚ)
    (h : db.embeddings.Pairwise (fun a b => a.id < b.id)) :
    (thresholdMatches db sim).Pairwise (fun a b => a.id < b.id) := by
  rw [thresholdMatches]
  refine List.pairwise_filterMap.mpr ?_
  refine (h.filter (fun e => e.hasEmbedding)).imp ?_
  intro a b hab x hx y hy
  have hxa := (matchStep_inv sim a x hx).2
  have hyb := (matchStep_inv sim b y hy).2
  rw [hxa, hyb]
  exact hab

/-- C3: the matches a successful retrieval returns are in non-increasing
`similarity_score` order, and equal scores appear in ascending source id
order.  The hypothesis `hids` is the `ORDER BY e.id` of the corpus query
(ids are a primary key, hence strictly increasing); CPython's stable
sort then keeps ties in that input order. -/
theorem find_similar_matches_sorted
    (db : DB) (rid : Nat) (sim : EmbeddingRow → Option ℚ) (embedOk writeOk : Bool)
    (i : Nat) (t c : String) (ms : List SimilarityMatch) (w : Option String)
    (hids : db.embeddings.Pairwise (fun a b => a.id < b.id))
    (h : (find_similar_matches db rid sim embedOk writeOk).1 =
      FindMatchesResult.ok i t c ms w) :
    ms.Pairwise (fun a b => b.similarity_score ≤ a.similarity_score ∧
      (a.similarity_score = b.similarity_score → a.id < b.id)) := by
  have hmain : ((sortDesc (thresholdMatches db sim)).take 5).Pairwise
      (fun a b => b.similarity_score ≤ a.similarity_score ∧
        (a.similarity_score = b.similarity_score → a.id < b.id)) := by
    have hp : (thresholdMatches db sim).Pairwise
        (fun a b => a.similarity_score = b.similarity_score → a.id < b.id) := by
      refine (thresholdMatches_pairwise_id db sim hids).imp ?_
      intro a b hid _
      exact hid
    have hs := pairwise_sortDesc _ hp
    have ht := hs.sublist (List.take_sublist 5 _)
    refine ht.imp ?_
    intro a b hr
    rcases hr with hlt | ⟨heq, hid⟩
    · refine ⟨le_of_lt hlt, ?_⟩
      intro he
      rw [he] at hlt
      exact absurd hlt (lt_irrefl _)
    · exact ⟨le_of_eq heq.symm, fun _ => hid⟩
  unfold find_similar_matches at h
  split at h
  · exact absurd h (by simp)
  · split at h
    · simp only [Prod.fst, FindMatchesResult.ok.injEq] at h
      obtain ⟨_, _, _, hms, _⟩ := h
      rw [← hms]
      exact List.Pairwise.nil
    · split at h
      · exact absurd h (by simp)
      · split at h
        · simp only [Prod.fst, FindMatchesResult.ok.injEq] at h
          obtain ⟨_, _, _, hms, _⟩ := h
          exact hms ▸ hmain
        · split at h
          · simp only [Prod.fst, FindMatchesResult.ok.injEq] at h
            obtain ⟨_, _, _, hms, _⟩ := h
            exact hms ▸ hmain
          · exact absurd h (by simp)

/-- C3 witness: the theorem applied to the tie database `dbT`, on which
both corpus rows score 0.95 and the result orders ids ascending. -/
theorem find_similar_matches_sorted_witness :
    ([⟨1, "alpha", "respA", "cat", "", "", mkRat 19 20⟩,
      ⟨2, "alpha two", "respB", "cat", "", "", mkRat 19 20⟩] :
        List SimilarityMatch).Pairwise
      (fun a b => b.similarity_score ≤ a.similarity_score ∧
        (a.similarity_score = b.similarity_score → a.id < b.id)) :=
  find_similar_matches_sorted dbT 1 simT true true 1 "alpha" "cat"
    [⟨1, "alpha", "respA", "cat", "", "", mkRat 19 20⟩,
      ⟨2, "alpha two", "respB", "cat", "", "", mkRat 19 20⟩] none
    (by decide) (by decide)

theorem insertDesc_ne_nil (m : SimilarityMatch) :
    ∀ l : List SimilarityMatch, insertDesc m l ≠ [] := by
  intro l
  cases l with
  | nil => simp [insertDesc]
  | cons a as =>
    simp only [insertDesc]
    split
    · simp
    · simp

theorem sortDesc_eq_nil_iff (l : List SimilarityMatch) : sortDesc l = [] ↔ l = [] := by
  cases l with
  | nil => simp [sortDesc]
  | cons a as =>
    constructor
    · intro h
      exact absurd h (insertDesc_ne_nil a (sortDesc as))
    · intro h
      exact absurd h (by simp)

/-- C4 (amended): when the requirement exists, an embedding for it
exists, the query embedding is generated, and zero corpus entries reach
the 0.90 threshold, find_similar_matches returns `success=true` with an
empty `similar_matches` list and does not raise — but WITHOUT a
`warning` key: the only branch that attaches a warning is the
no-embedding early return (find_matches.py lines 69-81); the
zero-matches return at lines 240-249 carries no warning. -/
theorem find_similar_matches_empty_success
    (db : DB) (rid : Nat) (sim : EmbeddingRow → Option ℚ) (writeOk : Bool)
    (req : RequirementRow)
    (hreq : db.requirements.find? (fun r => r.id == rid) = some req)
    (hcount : embeddingCountFor db req.requirement ≠ 0)
    (hzero : thresholdMatches db sim = []) :
    (find_similar_matches db rid sim true writeOk).1 =
      FindMatchesResult.ok rid req.requirement req.category [] none := by
  unfold find_similar_matches
  rw [hreq]
  dsimp only
  rw [if_neg (by simp [hcount]), hzero]
  simp [sortDesc]

/-- C4 counterexample: on `dbB` (embedding present, the single corpus
row scores 0.40) the result is `success=true` with empty matches and NO
warning — the claim asserts a warning flag is present. -/
theorem find_similar_matches_no_warning_counterexample :
    (find_similar_matches dbB 1 simLow true true).1 =
      FindMatchesResult.ok 1 "alpha" "cat" [] none ∧
    embeddingCountFor dbB "alpha" ≠ 0 := by
  exact ⟨by decide, by decide⟩

/-- C4 witness: the amended theorem applied to `dbB`. -/
theorem find_similar_matches_empty_success_witness :
    (find_similar_matches dbB 1 simLow true true).1 =
      FindMatchesResult.ok 1 "alpha" "cat" [] none :=
  find_similar_matches_empty_success dbB 1 simLow true ⟨1, "alpha", "cat", none⟩
    (by decide) (by decide) (by decide)

/-- C5 (amended): when matches have been computed (at least one row
passed the threshold) and the snapshot `UPDATE` fails, the exception
propagates to the outer handler (find_matches.py lines 250-255) and the
caller receives `success=false` with the error — the computed matches
are NOT returned.  The write failure is fatal to the call, not
non-blocking. -/
theorem find_similar_matches_write_failure_fatal
    (db : DB) (rid : Nat) (sim : EmbeddingRow → Option ℚ)
    (req : RequirementRow)
    (hreq : db.requirements.find? (fun r => r.id == rid) = some req)
    (hcount : embeddingCountFor db req.requirement ≠ 0)
    (hnz : thresholdMatches db sim ≠ []) :
    (find_similar_matches db rid sim true false).1 =
      FindMatchesResult.err "snapshot write failed" := by
  unfold find_similar_matches
  rw [hreq]
  dsimp only
  rw [if_neg (by simp [hcount])]
  have hsn : sortDesc (thresholdMatches db sim) ≠ [] := by
    intro h
    exact hnz ((sortDesc_eq_nil_iff _).mp h)
  have htn : ((sortDesc (thresholdMatches db sim)).take 5).isEmpty = false := by
    rw [Bool.eq_false_iff]
    intro h
    have := List.isEmpty_iff.mp h
    simp [List.take_eq_nil_iff, hsn] at this
  simp [htn]

/-- C5 counterexample: on `dbA` matches are computed (row 1 passes the
threshold), yet with a failing snapshot write the caller receives the
error dictionary, not the computed matches. -/
theorem find_similar_matches_write_failure_counterexample :
    thresholdMatches dbA simA ≠ [] ∧
    (find_similar_matches dbA 1 simA true false).1 =
      FindMatchesResult.err "snapshot write failed" := by
  exact ⟨by decide, by decide⟩

/-- C5 witness: the amended theorem applied to `dbA`. -/
theorem find_similar_matches_write_failure_fatal_witness :
    (find_similar_matches dbA 1 simA true false).1 =
      FindMatchesResult.err "snapshot write failed" :=
  find_similar_matches_write_failure_fatal dbA 1 simA ⟨1, "alpha", "cat", none⟩
    (by decide) (by decide) (by decide)

/-- C10: when zero corpus rows pass the 0.90 threshold the snapshot
write is skipped (`if similar_questions_for_db:` at find_matches.py line
204 is falsy), so the database — including any previously stored
`similar_questions` value — is left unchanged, on every control path. -/
theorem find_similar_matches_no_write_on_empty
    (db : DB) (rid : Nat) (sim : EmbeddingRow → Option ℚ) (embedOk writeOk : Bool)
    (hzero : thresholdMatches db sim = []) :
    (find_similar_matches db rid sim embedOk writeOk).2 = db := by
  unfold find_similar_matches
  cases hreq : db.requirements.find? (fun r => r.id == rid) with
  | none => rfl
  | some req =>
    dsimp only
    rw [hzero]
    by_cases h0 : embeddingCountFor db req.requirement == 0
    · simp [h0]
    · by_cases he : embedOk = false
      · simp [h0, he, sortDesc]
      · simp [h0, he, sortDesc]

/-- C10 witness: on `dbC`, whose requirement row carries a previously
stored non-empty snapshot, a below-threshold retrieval leaves the
database (and that snapshot) unchanged. -/
theorem find_similar_matches_no_write_on_empty_witness :
    (find_similar_matches dbC 1 simLow true true).2 = dbC :=
  find_similar_matches_no_write_on_empty dbC 1 simLow true true (by decide)

/-- C2 (amended): in the sequential MOA orchestrator
(`generate_moa_response_sequential`), when exactly one provider call
succeeds, the final response is that provider's text verbatim and the
synthesis call is not made (moa_sequential.py lines 212-216).  (In the
`get_llm_responses` MOA path of call_llm.py the claim fails: synthesis
is attempted whenever at least one provider succeeds — see the
counterexample — and the verbatim text is used only if synthesis
raises.) -/
theorem moa_sequential_single_success
    (skipO skipA skipD : Bool) (cO cA cD synth : CallResult) (name t : String)
    (h : (seqOutcomes skipO skipA skipD cO cA cD).filter (fun p => isSuccess p.2) =
      [(name, ProviderStatus.success t)]) :
    (generate_moa_response_sequential skipO skipA skipD cO cA cD synth).final_response =
        some t ∧
      (generate_moa_response_sequential skipO skipA skipD cO cA cD synth).synthesisCalled =
        false := by
  unfold generate_moa_response_sequential
  rw [h]
  exact ⟨rfl, rfl⟩

/-- C2 witness: OpenAI succeeds with `"A"`, the other two providers
raise; the sequential result is `"A"` with no synthesis call. -/
theorem moa_sequential_single_success_witness :
    (generate_moa_response_sequential false false false
        (.returns "A") (.raised "x") (.raised "y") (.returns "S")).final_response =
      some "A" ∧
    (generate_moa_response_sequential false false false
        (.returns "A") (.raised "x") (.raised "y") (.returns "S")).synthesisCalled =
      false :=
  moa_sequential_single_success false false false
    (.returns "A") (.raised "x") (.raised "y") (.returns "S") "openai" "A" (by decide)

/-- C2 counterexample: in call_llm.py's MOA branch (one of the claim's
cited code sites), with exactly one successful provider (`"A"`) and a
successful synthesis call returning `"SYNTH"`, a synthesis call IS made
and the final response is `"SYNTH"`, not the provider's text verbatim. -/
theorem get_llm_responses_moa_counterexample :
    (get_llm_responses_moa (some "A") none none (some "SYNTH")).synthesisCalled = true ∧
    (get_llm_responses_moa (some "A") none none (some "SYNTH")).final_response =
      some "SYNTH" ∧
    (some "SYNTH" : Option String) ≠ some "A" :=
  ⟨rfl, rfl, by decide⟩

/-- C6: when every provider fails, the MOA orchestration is a terminal
failure with no final text and no persistence write.  First conjunct:
call_llm.py lines 657-678 — with three `None` responses the
`ValueError` at line 678 is raised before the save at lines 680-704, so
nothing is returned and nothing is written.  Second conjunct:
moa_sequential.py lines 200-206 — zero successes yield the error
dictionary with no `final_response` key and no synthesis call (that
function performs no persistence at all). -/
theorem moa_all_fail_no_output :
    (∀ synthesis : Option String,
      get_llm_responses_moa none none none synthesis =
        ⟨none, false, none⟩) ∧
    (∀ (skipO skipA skipD : Bool) (cO cA cD synth : CallResult),
      (seqOutcomes skipO skipA skipD cO cA cD).filter (fun p => isSuccess p.2) = [] →
      (generate_moa_response_sequential skipO skipA skipD cO cA cD synth).status =
          "error" ∧
        (generate_moa_response_sequential skipO skipA skipD cO cA cD synth).final_response =
          none ∧
        (generate_moa_response_sequential skipO skipA skipD cO cA cD synth).synthesisCalled =
          false) := by
  constructor
  · intro s
    rfl
  · intro skipO skipA skipD cO cA cD synth h
    unfold generate_moa_response_sequential
    rw [h]
    exact ⟨rfl, rfl, rfl⟩

/-- C6 witness: three raising providers. -/
theorem moa_all_fail_no_output_witness :
    get_llm_responses_moa none none none (some "S") = ⟨none, false, none⟩ ∧
    (generate_moa_response_sequential false false false
        (.raised "eo") (.raised "ea") (.raised "ed") (.returns "S")).status = "error" ∧
    (generate_moa_response_sequential false false false
        (.raised "eo") (.raised "ea") (.raised "ed") (.returns "S")).final_response =
      none ∧
    (generate_moa_response_sequential false false false
        (.raised "eo") (.raised "ea") (.raised "ed") (.returns "S")).synthesisCalled =
      false :=
  ⟨moa_all_fail_no_output.1 (some "S"),
    moa_all_fail_no_output.2 false false false
      (.raised "eo") (.raised "ea") (.raised "ed") (.returns "S") (by decide)⟩

/-! ## Lemmas about the prompt formatter -/

theorem mem_includedMatches_score (prev : List PrevResponse) (m : PrevResponse)
    (hm : m ∈ includedMatches prev) : mkRat 9 10 ≤ m.similarity_score := by
  have h1 : m ∈ (high_similarity_responses prev).take 3 := List.mem_of_mem_filter hm
  have h2 : m ∈ high_similarity_responses prev := List.mem_of_mem_take h1
  rw [high_similarity_responses] at h2
  have hp := (List.mem_filter.mp h2).2
  exact of_decide_eq_true hp

theorem includedMatches_eq (prev : List PrevResponse) :
    includedMatches prev = (high_similarity_responses prev).take 3 := by
  rw [includedMatches]
  refine List.filter_eq_self.mpr ?_
  intro m hm
  have h2 : m ∈ high_similarity_responses prev := List.mem_of_mem_take hm
  rw [high_similarity_responses] at h2
  have hp := (List.mem_filter.mp h2).2
  have hge : mkRat 9 10 ≤ m.similarity_score := of_decide_eq_true hp
  have hd : decide (m.similarity_score < mkRat 9 10) = false :=
    decide_eq_false (not_lt.mpr hge)
  simp [hd]

theorem listContains_nil_needle (hay : List Char) : listContains [] hay = true := by
  induction hay with
  | nil => rfl
  | cons c rest ih => simp [listContains, leadsList, ih]

theorem leadsList_self_append (n post : List Char) : leadsList n (n ++ post) = true := by
  induction n with
  | nil => rfl
  | cons a as ih => simp [leadsList, ih]

theorem listContains_here (n post : List Char) : listContains n (n ++ post) = true := by
  cases n with
  | nil => exact listContains_nil_needle post
  | cons a as =>
    have hl := leadsList_self_append (a :: as) post
    rw [List.cons_append] at hl
    simp [listContains, hl]

theorem listContains_append_right (n pre post : List Char)
    (h : listContains n post = true) : listContains n (pre ++ post) = true := by
  induction pre with
  | nil => exact h
  | cons c rest ih => simp [listContains, ih]

theorem containsStr_of_eq (hay a s b : String) (he : hay = a ++ (s ++ b)) :
    listContains s.data hay.data = true := by
  subst he
  rw [String.data_append, String.data_append]
  exact listContains_append_right _ _ _ (listContains_here _ _)

theorem renderExamples_contains (l : List PrevResponse) :
    ∀ (i0 i : Nat) (m : PrevResponse), l[i]? = some m →
      mkRat 9 10 ≤ m.similarity_score →
      listContains (sourceBlock (i0 + i) m).data (renderExamples i0 l).data = true := by
  induction l with
  | nil =>
    intro i0 i m h _
    simp at h
  | cons x rest ih =>
    intro i0 i m h hge
    cases i with
    | zero =>
      have hx : x = m := by simpa using h
      subst hx
      have hd : decide (x.similarity_score < mkRat 9 10) = false :=
        decide_eq_false (not_lt.mpr hge)
      show listContains (sourceBlock (i0 + 0) x).data
        (((if decide (x.similarity_score < mkRat 9 10) then "" else sourceBlock i0 x)
          ++ renderExamples (i0 + 1) rest)).data = true
      rw [hd, Nat.add_zero]
      show listContains (sourceBlock i0 x).data
        ((sourceBlock i0 x ++ renderExamples (i0 + 1) rest)).data = true
      rw [String.data_append]
      exact listContains_here _ _
    | succ j =>
      have hr : rest[j]? = some m := by simpa using h
      have hc := ih (i0 + 1) j m hr hge
      have harith : i0 + (j + 1) = (i0 + 1) + j := by omega
      show listContains (sourceBlock (i0 + (j + 1)) m).data
        (((if decide (x.similarity_score < mkRat 9 10) then "" else sourceBlock i0 x)
          ++ renderExamples (i0 + 1) rest)).data = true
      rw [harith, String.data_append]
      exact listContains_append_right _ _ _ hc

/-- C7: the generation prompt embeds at most 3 matches, and only matches
with `similarity_score >= 0.90` — the filter at generate_prompt.py line
79 and the `[:3]` cap at line 81 hold for every input list, whether or
not upstream already filtered. -/
theorem create_rfp_prompt_included (prev : List PrevResponse) :
    (includedMatches prev).length ≤ 3 ∧
      ∀ m ∈ includedMatches prev, mkRat 9 10 ≤ m.similarity_score := by
  constructor
  · calc (includedMatches prev).length
        ≤ ((high_similarity_responses prev).take 3).length := List.length_filter_le _ _
      _ ≤ 3 := by simp [List.length_take]
  · intro m hm
    exact mem_includedMatches_score prev m hm

/-- C7 witness: the theorem applied to a singleton list at score 0.95. -/
theorem create_rfp_prompt_included_witness :
    mkRat 9 10 ≤ mExA.similarity_score :=
  (create_rfp_prompt_included [mExA]).2 mExA (by decide)

/-- C8 (amended): each included match's attribution block carries its
similarity score rendered as a TWO-DECIMAL RATIO — the literal fragment
`(Similarity: {score:.2f})` of generate_prompt.py line 104 — one
citation per source block of the rendered examples text, and only
scores at or above 0.90 are ever included, so no citation below 0.90 is
generated.  (The score is NOT rendered as a percentage: see the
counterexample.) -/
theorem create_rfp_prompt_attribution
    (prev : List PrevResponse) (i : Nat) (m : PrevResponse)
    (h : (includedMatches prev)[i]? = some m) :
    listContains (citeStr m.similarity_score).data (sourceBlock (i + 1) m).data = true ∧
    listContains (sourceBlock (i + 1) m).data (formattedExamples prev).data = true ∧
    mkRat 9 10 ≤ m.similarity_score := by
  have hmem : m ∈ includedMatches prev := List.getElem?_mem h
  have hge : mkRat 9 10 ≤ m.similarity_score := mem_includedMatches_score prev m hmem
  refine ⟨?_, ?_, hge⟩
  · exact containsStr_of_eq _
      ("**Source " ++ toString (i + 1) ++ ": " ++ shortTitle m.requirement
        ++ customerSuffix m.customer ++ " ")
      (citeStr m.similarity_score)
      ("**:" ++ "\n"
        ++ "Original Requirement: " ++ m.requirement ++ "\n"
        ++ "Previous Response: " ++ m.response ++ "\n"
        ++ (if m.customer == "" then "" else "Customer/Client: " ++ m.customer ++ "\n")
        ++ "\n") rfl
  · have hidx : ((high_similarity_responses prev).take 3)[i]? = some m := by
      rw [← includedMatches_eq]
      exact h
    have hc := renderExamples_contains ((high_similarity_responses prev).take 3) 1 i m
      hidx hge
    rw [formattedExamples]
    have harith : 1 + i = i + 1 := Nat.add_comm 1 i
    rw [harith] at hc
    exact hc

/-- C8 witness: the amended theorem applied to the singleton list
`[mExA]` at index 0. -/
theorem create_rfp_prompt_attribution_witness :
    listContains (citeStr mExA.similarity_score).data (sourceBlock 1 mExA).data = true ∧
    listContains (sourceBlock 1 mExA).data (formattedExamples [mExA]).data = true ∧
    mkRat 9 10 ≤ mExA.similarity_score :=
  create_rfp_prompt_attribution [mExA] 0 mExA (by decide)

/-- C8 counterexample: for a match at score 0.95 the rendered source
block contains the two-decimal citation `(Similarity: 0.95)` but NOT the
percentage rendering `95%` — indeed it contains no percent sign at all —
refuting "similarity score rendered as a percentage". -/
theorem create_rfp_prompt_attribution_counterexample :
    listContains (citePercent (mkRat 19 20)).data (sourceBlock 1 mExA).data = false ∧
    (sourceBlock 1 mExA).data.contains '%' = false ∧
    listContains (citeStr (mkRat 19 20)).data (sourceBlock 1 mExA).data = true ∧
    mExA.similarity_score = mkRat 19 20 := by
  exact ⟨by decide, by decide, by decide, by decide⟩

/-! ## Lemmas about extract_text -/

theorem contentListFallback_ok (items : List PyVal) (content : PyVal) :
    ∃ w, contentListFallback items content = .ok w := by
  unfold contentListFallback
  split
  · split
    · split
      · exact ⟨_, rfl⟩
      · exact ⟨_, rfl⟩
    · exact ⟨_, rfl⟩
  · exact ⟨_, rfl⟩

theorem contentListFallback_str (items : List PyVal)
    (h : contentFallbackOk items = true) :
    ∃ s, contentListFallback items (PyVal.list items) = .ok (.str s) := by
  unfold contentFallbackOk at h
  cases hcf : contentListFallback items (PyVal.list items) with
  | ok t =>
    rw [hcf] at h
    dsimp only at h
    cases t with
    | str s => exact ⟨s, rfl⟩
    | pynone => exact absurd h (by simp [isStrB])
    | int n => exact absurd h (by simp [isStrB])
    | list l => exact absurd h (by simp [isStrB])
    | dict d => exact absurd h (by simp [isStrB])
    | obj a => exact absurd h (by simp [isStrB])
  | error e =>
    obtain ⟨w, hw⟩ := contentListFallback_ok items (PyVal.list items)
    rw [hcf] at hw
    exact absurd hw (by simp)

theorem messageProbe_str (v : PyVal) (h : messageLeafOk v = true) (t : PyVal)
    (hp : messageProbe v = some t) : ∃ s, t = PyVal.str s := by
  unfold messageLeafOk at h
  rw [hp] at h
  dsimp only at h
  cases t with
  | str s => exact ⟨s, rfl⟩
  | pynone => exact absurd h (by simp [isStrB])
  | int n => exact absurd h (by simp [isStrB])
  | list l => exact absurd h (by simp [isStrB])
  | dict d => exact absurd h (by simp [isStrB])
  | obj a => exact absurd h (by simp [isStrB])

theorem choicesProbe_str (v : PyVal) (h : choicesLeafOk v = true) (t : PyVal)
    (hp : choicesProbe v = some t) : ∃ s, t = PyVal.str s := by
  unfold choicesLeafOk at h
  rw [hp] at h
  dsimp only at h
  cases t with
  | str s => exact ⟨s, rfl⟩
  | pynone => exact absurd h (by simp [isStrB])
  | int n => exact absurd h (by simp [isStrB])
  | list l => exact absurd h (by simp [isStrB])
  | dict d => exact absurd h (by simp [isStrB])
  | obj a => exact absurd h (by simp [isStrB])

theorem extract_text_obj_case (attrs : List (String × PyVal))
    (h : textLeavesOk (PyVal.obj attrs) = true) :
    ∃ s, extract_text (PyVal.obj attrs) = .ok (.str s) := by
  unfold textLeavesOk at h
  unfold extract_text
  dsimp only at h ⊢
  cases hc : getAttr (PyVal.obj attrs) "content" with
  | some content =>
    rw [hc] at h
    dsimp only at h ⊢
    cases content with
    | list items =>
      dsimp only at h ⊢
      cases hj : joinTexts items with
      | ok r =>
        dsimp only
        by_cases hr : r == ""
        · rw [if_pos hr]
          exact contentListFallback_str items h
        · rw [if_neg hr]
          exact ⟨r, rfl⟩
      | error e =>
        dsimp only
        exact contentListFallback_str items h
    | pynone => exact ⟨pyStr PyVal.pynone, rfl⟩
    | str s => exact ⟨s, rfl⟩
    | int n => exact ⟨pyStr (PyVal.int n), rfl⟩
    | dict d => exact ⟨pyStr (PyVal.dict d), rfl⟩
    | obj a => exact ⟨pyStr (PyVal.obj a), rfl⟩
  | none =>
    rw [hc] at h
    dsimp only at h ⊢
    cases ht : getAttr (PyVal.obj attrs) "text" with
    | some t =>
      rw [ht] at h
      dsimp only at h
      cases t with
      | str s => exact ⟨s, rfl⟩
      | pynone => exact absurd h (by simp [isStrB])
      | int n => exact absurd h (by simp [isStrB])
      | list l => exact absurd h (by simp [isStrB])
      | dict d => exact absurd h (by simp [isStrB])
      | obj a => exact absurd h (by simp [isStrB])
    | none =>
      rw [ht] at h
      dsimp only at h ⊢
      rw [Bool.and_eq_true] at h
      obtain ⟨hmsg, hch⟩ := h
      cases hmp : messageProbe (PyVal.obj attrs) with
      | some t =>
        obtain ⟨s, rfl⟩ := messageProbe_str _ hmsg t hmp
        exact ⟨s, rfl⟩
      | none =>
        dsimp only
        cases hcp : choicesProbe (PyVal.obj attrs) with
        | some t =>
          obtain ⟨s, rfl⟩ := choicesProbe_str _ hch t hcp
          exact ⟨s, rfl⟩
        | none => exact ⟨pyStr (PyVal.obj attrs), rfl⟩

/-- C9 (amended): extract_text follows the ordered probing strategy and,
for every input whose probed text leaves are strings (`textLeavesOk`),
terminates without raising and returns a string.  The unamended claim —
"for every input of ANY shape" — fails: an object whose `text` attribute
is not a string makes the un-`try`-guarded debug print at call_llm.py
line 94 raise `TypeError`, or makes the function return a non-string
value (see the counterexample). -/
theorem extract_text_total_string (v : PyVal) (h : textLeavesOk v = true) :
    ∃ s, extract_text v = .ok (.str s) := by
  cases v with
  | pynone => exact ⟨pyStr PyVal.pynone, rfl⟩
  | str s => exact ⟨s, rfl⟩
  | int n => exact ⟨pyStr (PyVal.int n), rfl⟩
  | list items => exact ⟨pyStr (PyVal.list items), rfl⟩
  | dict entries => exact ⟨pyStr (PyVal.dict entries), rfl⟩
  | obj attrs => exact extract_text_obj_case attrs h

/-- C9 witness: a content list with one string text block normalizes to
that string. -/
theorem extract_text_total_string_witness :
    textLeavesOk vEx = true ∧ ∃ s, extract_text vEx = .ok (.str s) :=
  ⟨rfl, extract_text_total_string vEx rfl⟩

/-- C9 counterexample: an object whose `text` attribute is the integer 5
makes extract_text raise (`len(response.text)` in the debug print at
call_llm.py line 94, outside any `try`); one whose `text` attribute is a
list returns that list, not a string. -/
theorem extract_text_counterexample :
    extract_text (.obj [("text", PyVal.int 5)]) =
      .error "TypeError: object has no len" ∧
    extract_text (.obj [("text", PyVal.list [])]) = .ok (PyVal.list []) :=
  ⟨rfl, rfl⟩

end RFP
